import Mathlib

/-!
Shallow embedding of `src/drivers/can/can_native_posix_linux.c`, the Zephyr
native-POSIX Linux SocketCAN driver, together with proofs about its filter
table, receive dispatch loop, transmit path and controller state machine.

External collaborators (the Linux socket transport, the socketcan codec) are
abstracted: the transport's read result is a pair of a byte count and a
confirmation marker, its write result is an opaque integer, and decoded
frames are passed in directly.
-/

namespace CanNpl

/-! ### Error constants (Zephyr minimal libc `errno.h` values) -/

def EIOerr : Int := 5
def EAGAIN : Int := 11
def EBUSY : Int := 16
def EINVAL : Int := 22
def ENOSPC : Int := 28
def ENETDOWN : Int := 115
def EALREADY : Int := 120
def ENOTSUP : Int := 134

/-! ### CAN constants (`zephyr/drivers/can.h`) -/

def CAN_MAX_DLC : Nat := 8
def CANFD_MAX_DLC : Nat := 15
def CAN_MTU : Nat := 16
def CANFD_MTU : Nat := 72
def CAN_MODE_LOOPBACK : Nat := 1
def CAN_MODE_FD : Nat := 4
def UINT32_MASK : Nat := 2 ^ 32 - 1

/-- `enum can_ide`: standard (11-bit) vs extended (29-bit) identifier. -/
inductive CanIde where
  | standard
  | extended
deriving DecidableEq, Repr

/-- `struct can_frame`: identifier, identifier type, RTR/FD/BRS flags,
data length code and payload. -/
structure CanFrame where
  id : Nat
  id_type : CanIde
  rtr : Bool
  fd : Bool
  brs : Bool
  dlc : Nat
  data : List Nat
deriving DecidableEq, Repr

/-- `struct can_filter`: identifier pattern, mask and identifier type. -/
structure CanFilter where
  id : Nat
  id_mask : Nat
  id_type : CanIde
deriving DecidableEq, Repr

/-- `struct can_filter_context`: one slot of the filter table. A slot is
empty iff `rx_cb = none` (`rx_cb == NULL` in the source); callbacks are
identified by an opaque `Nat` tag. -/
structure FilterContext where
  rx_cb : Option Nat
  cb_arg : Nat
  filter : CanFilter
deriving DecidableEq, Repr

/-- `struct can_npl_data`: the driver instance state. Semaphores are modelled
by their counts (both have a maximum count of 1). -/
structure CanNplData where
  filters : List FilterContext
  tx_idle : Nat
  tx_done : Nat
  tx_callback : Option Nat
  tx_user_data : Nat
  loopback : Bool
  mode_fd : Bool
  dev_fd : Int
  started : Bool
deriving DecidableEq, Repr

/-- `k_sem_give` on a semaphore with maximum count 1. -/
def semGive (n : Nat) : Nat := min (n + 1) 1

/-- Modelled from the spec: `can_utils_filter_match` (declared in
`can_utils.h`, which is not part of the provided sources). The spec gives
the matching rule as `(frame.id_type == rule.id_type) AND
((frame.id & rule.mask) == (rule.id & rule.mask))`. -/
def can_utils_filter_match (frame : CanFrame) (flt : CanFilter) : Bool :=
  decide (frame.id_type = flt.id_type) &&
    decide (frame.id &&& flt.id_mask = flt.id &&& flt.id_mask)

/-- One observable callback invocation made by `dispatch_frame`: the slot
index, the callback tag stored there, the frame value handed to the
callback, and the opaque argument. -/
structure DispatchEvent where
  filter_id : Nat
  rx_cb : Nat
  frame : CanFrame
  cb_arg : Nat
deriving DecidableEq, Repr

/-- The loop body of `dispatch_frame`, walking the filter slots from index
`filter_id` with the current value of the local `tmp_frame`. A callback may
mutate the copy it is handed; this is modelled by the oracle
`mutf : Nat → CanFrame → CanFrame` giving the value of `tmp_frame` after
callback `cb` ran on it. As in the source, `tmp_frame` is re-assigned from
`*frame` before every invocation. -/
def dispatchLoop (frame : CanFrame) (mutf : Nat → CanFrame → CanFrame) :
    List FilterContext → Nat → CanFrame → List DispatchEvent
  | [], _, _ => []
  | c :: rest, filter_id, tmp_frame =>
    match c.rx_cb with
    | none => dispatchLoop frame mutf rest (filter_id + 1) tmp_frame
    | some cb =>
      if can_utils_filter_match frame c.filter then
        let tmp' := frame
        ⟨filter_id, cb, tmp', c.cb_arg⟩ ::
          dispatchLoop frame mutf rest (filter_id + 1) (mutf cb tmp')
      else
        dispatchLoop frame mutf rest (filter_id + 1) tmp_frame

/-- `dispatch_frame`: returns the sequence of callback invocations performed
for `frame`, in program order. `tmp0` is the (uninitialised) initial value
of the local `tmp_frame`. -/
def dispatch_frame (s : CanNplData) (frame : CanFrame)
    (mutf : Nat → CanFrame → CanFrame) (tmp0 : CanFrame) : List DispatchEvent :=
  dispatchLoop frame mutf s.filters 0 tmp0

/-- Whether slot `i` of a filter table is occupied and matches `frame`. -/
def slotFires (l : List FilterContext) (frame : CanFrame) (i : Nat) : Bool :=
  match l[i]? with
  | some c => c.rx_cb.isSome && can_utils_filter_match frame c.filter
  | none => false

/-- Whether slot `i` exists and is empty (`rx_cb == NULL`). -/
def slotEmptyAt (l : List FilterContext) (i : Nat) : Bool :=
  match l[i]? with
  | some c => c.rx_cb.isNone
  | none => false

/-- `i` is the lowest-index empty slot of `l`. -/
def isLowestEmpty (l : List FilterContext) (i : Nat) : Prop :=
  slotEmptyAt l i = true ∧ ∀ j, j < i → slotEmptyAt l j = false

/-! ### Receive loop (`rx_thread` inner loop body) -/

/-- The observable outcome of one pass of the inner loop of `rx_thread`,
for one transport read returning `(count, msg_confirm)`. -/
structure RxStepResult where
  /-- The transmit-completion callback invocation, if any:
  `(callback, status, user_data)`. -/
  tx_cb_event : Option (Nat × Int × Nat)
  /-- Whether `k_sem_give(&data->tx_done)` was executed. -/
  done_given : Bool
  /-- Whether `k_sem_give(&data->tx_idle)` was executed. -/
  idle_given : Bool
  /-- Whether `dispatch_frame` was reached for this unit. -/
  dispatched : Bool
  /-- The callback invocations `dispatch_frame` performed (empty when
  `dispatched = false`). -/
  events : List DispatchEvent
  /-- Whether the inner loop was exited (`break`) by this pass. -/
  brk : Bool
  /-- Driver state after the pass. -/
  state : CanNplData
deriving DecidableEq, Repr

/-- One pass of the inner `while` loop of `rx_thread`: the transport read
returned `count` bytes with confirmation marker `msg_confirm`; `frame` is
the frame `socketcan_to_can_frame` decodes from the read buffer, and
`mutf` is the callback-mutation oracle of `dispatch_frame`. -/
def rxStepOnce (s : CanNplData) (count : Int) (msg_confirm : Bool)
    (frame : CanFrame) (mutf : Nat → CanFrame → CanFrame) : RxStepResult :=
  if msg_confirm then
    let ev := s.tx_callback.map (fun cb => (cb, (0 : Int), s.tx_user_data))
    let dg := s.tx_callback.isNone
    let s1 : CanNplData :=
      { s with tx_done := if dg then semGive s.tx_done else s.tx_done,
               tx_idle := semGive s.tx_idle }
    if !s1.loopback || !s1.started then
      ⟨ev, dg, true, false, [], false, s1⟩
    else if count ≤ 0 then
      ⟨ev, dg, true, false, [], true, s1⟩
    else
      ⟨ev, dg, true, true, dispatch_frame s1 frame mutf frame, false, s1⟩
  else if count ≤ 0 then
    ⟨none, false, false, false, [], true, s⟩
  else
    ⟨none, false, false, true, dispatch_frame s frame mutf frame, false, s⟩

/-! ### Transmit path (`can_npl_send`) -/

/-- The DLC bound `can_npl_send` checks against: `CANFD_MAX_DLC` when the
driver is compiled with `CONFIG_CAN_FD_MODE` (`cfgFD`), the controller is in
FD mode and the frame carries the FD flag; `CAN_MAX_DLC` otherwise. -/
def sendMaxDlc (cfgFD : Bool) (s : CanNplData) (frame : CanFrame) : Nat :=
  if cfgFD && s.mode_fd && frame.fd then CANFD_MAX_DLC else CAN_MAX_DLC

/-- The wire MTU `can_npl_send` passes to the transport write. -/
def sendMtu (cfgFD : Bool) (s : CanNplData) (frame : CanFrame) : Nat :=
  if cfgFD && s.mode_fd && frame.fd then CANFD_MTU else CAN_MTU

/-- `can_npl_send`. Interactions with the environment are oracles:
`idle_acquired` is whether `k_sem_take(&data->tx_idle, timeout)` returned 0
within the timeout, and `write_ret` is the return value of
`linux_socketcan_write_data`. A negative `write_ret` is only logged. In the
synchronous mode (`callback = none`) the terminal `k_sem_take(&data->tx_done,
K_FOREVER)` is modelled as consuming the done signal. Returns the result
code and the driver state at return. -/
def can_npl_send (cfgFD : Bool) (s : CanNplData) (frame : CanFrame)
    (callback : Option Nat) (user_data : Nat)
    (idle_acquired : Bool) (write_ret : Int) : Int × CanNplData :=
  let max_dlc := sendMaxDlc cfgFD s frame
  if frame.dlc > max_dlc then
    (-EINVAL, s)
  else if s.dev_fd ≤ 0 then
    (-EIOerr, s)
  else if !s.started then
    (-ENETDOWN, s)
  else if !idle_acquired then
    (-EAGAIN, s)
  else
    let s1 : CanNplData :=
      { s with tx_idle := s.tx_idle - 1,
               tx_callback := callback,
               tx_user_data := user_data }
    let _ := write_ret
    let s2 : CanNplData :=
      if callback.isNone then { s1 with tx_done := s1.tx_done - 1 } else s1
    (0, s2)

/-! ### Filter table mutation -/

/-- The slot-scan loop of `can_npl_add_rx_filter`: index of the first slot
with `rx_cb == NULL`, if any. -/
def firstFreeSlot : List FilterContext → Option Nat
  | [] => none
  | c :: rest =>
    if c.rx_cb.isNone then some 0 else (firstFreeSlot rest).map (· + 1)

/-- `can_npl_add_rx_filter`: store `(cb, cb_arg, flt)` in the first free
slot and return its index, or `-ENOSPC` when the table is full. -/
def can_npl_add_rx_filter (s : CanNplData) (cb : Nat) (cb_arg : Nat)
    (flt : CanFilter) : Int × CanNplData :=
  match firstFreeSlot s.filters with
  | none => (-ENOSPC, s)
  | some i =>
    ((i : Int), { s with filters := s.filters.set i ⟨some cb, cb_arg, flt⟩ })

/-- Clear slot `i` of the table (`data->filters[filter_id].rx_cb = NULL`). -/
def clearSlot (l : List FilterContext) (i : Nat) : List FilterContext :=
  match l[i]? with
  | none => l
  | some c => l.set i { c with rx_cb := none }

/-- `can_npl_remove_rx_filter`: out-of-range handles are ignored; otherwise
the slot's callback pointer is set to `NULL`. -/
def can_npl_remove_rx_filter (s : CanNplData) (filter_id : Int) : CanNplData :=
  if filter_id < 0 ∨ (s.filters.length : Int) ≤ filter_id then s
  else { s with filters := clearSlot s.filters filter_id.toNat }

/-! ### Controller state machine -/

/-- `can_npl_get_capabilities`. -/
def can_npl_get_capabilities (cfgFD : Bool) : Int × Nat :=
  (0, if cfgFD then CAN_MODE_LOOPBACK ||| CAN_MODE_FD else CAN_MODE_LOOPBACK)

/-- `can_npl_start`. -/
def can_npl_start (s : CanNplData) : Int × CanNplData :=
  if s.started then (-EALREADY, s) else (0, { s with started := true })

/-- `can_npl_stop`. -/
def can_npl_stop (s : CanNplData) : Int × CanNplData :=
  if !s.started then (-EALREADY, s) else (0, { s with started := false })

/-- `can_npl_set_mode`. `mode` is a `can_mode_t` (`uint32_t`) bit set;
`cfgFD` selects the `CONFIG_CAN_FD_MODE` compilation variant. -/
def can_npl_set_mode (cfgFD : Bool) (s : CanNplData) (mode : Nat) :
    Int × CanNplData :=
  let m := mode &&& UINT32_MASK
  let supported :=
    if cfgFD then CAN_MODE_LOOPBACK ||| CAN_MODE_FD else CAN_MODE_LOOPBACK
  if (m &&& (UINT32_MASK ^^^ supported)) != 0 then
    (-ENOTSUP, s)
  else if s.started then
    (-EBUSY, s)
  else
    (0, { s with loopback := (m &&& CAN_MODE_LOOPBACK) != 0,
                 mode_fd := (m &&& CAN_MODE_FD) != 0 })

/-- `can_npl_set_timing`: accepted (but not applied) while stopped. -/
def can_npl_set_timing (s : CanNplData) : Int × CanNplData :=
  if s.started then (-EBUSY, s) else (0, s)

/-- `enum can_state`. -/
inductive CanState where
  | errorActive
  | errorWarning
  | errorPassive
  | busOff
  | stopped
deriving DecidableEq, Repr

/-- `can_npl_get_state`: `want_state` / `want_err_cnt` model whether the
`state` / `err_cnt` output pointers are non-`NULL`; the outputs written
through them are returned as options, together with the result code. The
error-counter output is the pair `(tx_err_cnt, rx_err_cnt)`. -/
def can_npl_get_state (s : CanNplData) (want_state : Bool)
    (want_err_cnt : Bool) : Int × Option CanState × Option (Nat × Nat) :=
  ( 0,
    if want_state then
      some (if !s.started then CanState.stopped else CanState.errorActive)
    else none,
    if want_err_cnt then some (0, 0) else none )

/-- `can_npl_recover`. -/
def can_npl_recover (s : CanNplData) : Int × CanNplData :=
  if !s.started then (-ENETDOWN, s) else (0, s)

/-! ### Concrete sample values -/

/-- A sample filter rule. -/
def sampleFilter : CanFilter := ⟨0x123, 0x7FF, CanIde.standard⟩

/-- An empty filter slot. -/
def emptySlot : FilterContext := ⟨none, 0, sampleFilter⟩

/-- An occupied filter slot holding callback tag `cb`. -/
def occSlot (cb : Nat) : FilterContext := ⟨some cb, 7, sampleFilter⟩

/-- A freshly initialised, stopped controller with an empty 5-slot filter
table (`CONFIG_CAN_MAX_FILTER` defaults to 5), `tx_idle` at 1, `tx_done`
at 0, and a valid transport descriptor. -/
def sampleStopped : CanNplData :=
  ⟨[emptySlot, emptySlot, emptySlot, emptySlot, emptySlot],
   1, 0, none, 0, false, false, 3, false⟩

/-- The sample controller after a successful `start()`. -/
def sampleStarted : CanNplData := { sampleStopped with started := true }

/-- A started controller with loopback enabled and a registered pending
transmit callback. -/
def sampleLoopback : CanNplData :=
  { sampleStarted with loopback := true, tx_callback := some 42,
                       tx_user_data := 9 }

/-- A sample data frame with identifier `0x123`. -/
def sampleFrame : CanFrame :=
  ⟨0x123, CanIde.standard, false, false, false, 2, [0xAA, 0xBB]⟩

/-- The sample controller with slot 0 occupied and slots 1 to 4 empty. -/
def sampleOneFilter : CanNplData :=
  { sampleStarted with
    filters := [occSlot 1, emptySlot, emptySlot, emptySlot, emptySlot] }

/-- The sample controller with every filter slot occupied. -/
def sampleFullTable : CanNplData :=
  { sampleStarted with
    filters := [occSlot 1, occSlot 2, occSlot 3, occSlot 4, occSlot 5] }

/-! ### Theorems -/

/-- C7: `start()` transitions `stopped → started` and fails with
`-EALREADY`, leaving the state unchanged, when already started;
symmetrically `stop()` transitions `started → stopped` and fails with
`-EALREADY` when already stopped. -/
theorem start_stop_state_machine (s : CanNplData) :
    (s.started = false →
      (can_npl_start s).1 = 0 ∧
      (can_npl_start s).2 = { s with started := true })
    ∧ (s.started = true →
      (can_npl_start s).1 = -EALREADY ∧ (can_npl_start s).2 = s)
    ∧ (s.started = true →
      (can_npl_stop s).1 = 0 ∧
      (can_npl_stop s).2 = { s with started := false })
    ∧ (s.started = false →
      (can_npl_stop s).1 = -EALREADY ∧ (can_npl_stop s).2 = s) := by
  refine ⟨?_, ?_, ?_, ?_⟩ <;> intro h <;>
    simp [can_npl_start, can_npl_stop, h]

/-- Witness for `start_stop_state_machine` at the sample states. -/
theorem start_stop_state_machine_witness :
    (can_npl_start sampleStopped).1 = 0 ∧
    (can_npl_start sampleStarted).1 = -EALREADY ∧
    (can_npl_stop sampleStarted).1 = 0 ∧
    (can_npl_stop sampleStopped).1 = -EALREADY :=
  ⟨((start_stop_state_machine sampleStopped).1 rfl).1,
   ((start_stop_state_machine sampleStarted).2.1 rfl).1,
   ((start_stop_state_machine sampleStarted).2.2.1 rfl).1,
   ((start_stop_state_machine sampleStopped).2.2.2 rfl).1⟩

/-- C9: `get_state()` reports `CAN_STATE_STOPPED` whenever the controller
is not started and `CAN_STATE_ERROR_ACTIVE` whenever it is started, for
every controller state and whether or not the error-counter output is
requested. -/
theorem get_state_bus_state (s : CanNplData) (wec : Bool) :
    (s.started = false →
      (can_npl_get_state s true wec).2.1 = some CanState.stopped)
    ∧ (s.started = true →
      (can_npl_get_state s true wec).2.1 = some CanState.errorActive) := by
  constructor <;> intro h <;> simp [can_npl_get_state, h]

/-- Witness for `get_state_bus_state` at the sample states. -/
theorem get_state_bus_state_witness :
    (can_npl_get_state sampleStopped true true).2.1 = some CanState.stopped ∧
    (can_npl_get_state sampleStarted true false).2.1 =
      some CanState.errorActive :=
  ⟨(get_state_bus_state sampleStopped true).1 rfl,
   (get_state_bus_state sampleStarted false).2 rfl⟩

/-- C10: whenever the error-counter output is requested, `get_state()`
reports both the transmit and the receive error counter as zero, in every
controller state. -/
theorem get_state_error_counters (s : CanNplData) (ws : Bool) :
    (can_npl_get_state s ws true).2.2 = some (0, 0) := by
  simp [can_npl_get_state]

/-- C1: once the DLC, transport-handle and running-state checks pass and
the idle permit is acquired, `send()` returns 0 even when the transport
write returns a negative value. -/
theorem send_ignores_write_failure (cfgFD : Bool) (s : CanNplData)
    (frame : CanFrame) (cb : Option Nat) (ud : Nat) (w : Int)
    (h1 : frame.dlc ≤ sendMaxDlc cfgFD s frame) (h2 : 0 < s.dev_fd)
    (h3 : s.started = true) (h4 : w < 0) :
    (can_npl_send cfgFD s frame cb ud true w).1 = 0 := by
  simp [can_npl_send, Nat.not_lt.mpr h1, Int.not_le.mpr h2, h3]

/-- Witness for `send_ignores_write_failure`: a write failure (`-1`) on the
started sample controller still yields result 0. -/
theorem send_ignores_write_failure_witness :
    sampleFrame.dlc ≤ sendMaxDlc false sampleStarted sampleFrame ∧
    (0 : Int) < sampleStarted.dev_fd ∧
    sampleStarted.started = true ∧
    (-1 : Int) < 0 ∧
    (can_npl_send false sampleStarted sampleFrame none 0 true (-1)).1 = 0 :=
  ⟨by decide, by decide, by decide, by decide,
   send_ignores_write_failure false sampleStarted sampleFrame none 0 (-1)
     (by decide) (by decide) (by decide) (by decide)⟩

/-- C5: the precondition checks of `send()` fire in order — oversized DLC
gives `-EINVAL`, an invalid transport descriptor gives `-EIO`, a stopped
controller gives `-ENETDOWN`, and failure to acquire the idle permit within
the timeout gives `-EAGAIN` — and each failure returns the state
unchanged. -/
theorem send_error_paths (cfgFD : Bool) (s : CanNplData) (frame : CanFrame)
    (cb : Option Nat) (ud : Nat) (acq : Bool) (w : Int) :
    (sendMaxDlc cfgFD s frame < frame.dlc →
      can_npl_send cfgFD s frame cb ud acq w = (-EINVAL, s))
    ∧ (frame.dlc ≤ sendMaxDlc cfgFD s frame → s.dev_fd ≤ 0 →
      can_npl_send cfgFD s frame cb ud acq w = (-EIOerr, s))
    ∧ (frame.dlc ≤ sendMaxDlc cfgFD s frame → 0 < s.dev_fd →
      s.started = false →
      can_npl_send cfgFD s frame cb ud acq w = (-ENETDOWN, s))
    ∧ (frame.dlc ≤ sendMaxDlc cfgFD s frame → 0 < s.dev_fd →
      s.started = true →
      can_npl_send cfgFD s frame cb ud false w = (-EAGAIN, s)) := by
  refine ⟨?_, ?_, ?_, ?_⟩
  · intro h
    simp [can_npl_send, h]
  · intro h1 h2
    simp [can_npl_send, Nat.not_lt.mpr h1, h2]
  · intro h1 h2 h3
    simp [can_npl_send, Nat.not_lt.mpr h1, Int.not_le.mpr h2, h3]
  · intro h1 h2 h3
    simp [can_npl_send, Nat.not_lt.mpr h1, Int.not_le.mpr h2, h3]

/-- Witness for `send_error_paths`: each of the four failure paths hit at a
concrete input. -/
theorem send_error_paths_witness :
    can_npl_send false sampleStarted
        { sampleFrame with dlc := 9 } none 0 true 16 =
      (-EINVAL, sampleStarted) ∧
    can_npl_send false { sampleStarted with dev_fd := 0 }
        sampleFrame none 0 true 16 =
      (-EIOerr, { sampleStarted with dev_fd := 0 }) ∧
    can_npl_send false sampleStopped sampleFrame none 0 true 16 =
      (-ENETDOWN, sampleStopped) ∧
    can_npl_send false sampleStarted sampleFrame none 0 false 16 =
      (-EAGAIN, sampleStarted) :=
  ⟨(send_error_paths false sampleStarted { sampleFrame with dlc := 9 }
      none 0 true 16).1 (by decide),
   (send_error_paths false { sampleStarted with dev_fd := 0 } sampleFrame
      none 0 true 16).2.1 (by decide) (by decide),
   (send_error_paths false sampleStopped sampleFrame none 0 true 16).2.2.1
      (by decide) (by decide) (by decide),
   (send_error_paths false sampleStarted sampleFrame none 0 false 16).2.2.2
      (by decide) (by decide) (by decide)⟩

/-- C6 counterexample: on a started controller, requesting the unsupported
mode bit `CAN_MODE_ONE_SHOT` (bit 3, value 8) yields `-ENOTSUP`, not
`-EBUSY` as the claim requires for every mode value while started: the
unsupported-bits check precedes the busy check. -/
theorem set_mode_busy_counterexample :
    sampleStarted.started = true ∧
    (can_npl_set_mode true sampleStarted 8).1 = -ENOTSUP ∧
    (can_npl_set_mode true sampleStarted 8).1 ≠ -EBUSY := by
  refine ⟨rfl, by decide, by decide⟩

/-- Auxiliary: the `!= 0` test on a `Nat` as a `decide`. -/
theorem bne_zero_eq_decide (a : Nat) : (a != 0) = decide (a ≠ 0) := by
  cases a <;> simp

/-- C6 (amended): `set_mode` first rejects mode bits outside the supported
capability set with `-ENOTSUP` regardless of start state; for an in-capability
mode it fails `-EBUSY` while started; while stopped it succeeds and sets the
loopback and FD flags to the presence of the respective bits. Failures leave
the state unchanged. -/
theorem set_mode_spec (cfgFD : Bool) (s : CanNplData) (mode : Nat) :
    (mode &&& UINT32_MASK &&&
        (UINT32_MASK ^^^ (can_npl_get_capabilities cfgFD).2) ≠ 0 →
      can_npl_set_mode cfgFD s mode = (-ENOTSUP, s))
    ∧ (mode &&& UINT32_MASK &&&
        (UINT32_MASK ^^^ (can_npl_get_capabilities cfgFD).2) = 0 →
      s.started = true →
      can_npl_set_mode cfgFD s mode = (-EBUSY, s))
    ∧ (mode &&& UINT32_MASK &&&
        (UINT32_MASK ^^^ (can_npl_get_capabilities cfgFD).2) = 0 →
      s.started = false →
      (can_npl_set_mode cfgFD s mode).1 = 0 ∧
      (can_npl_set_mode cfgFD s mode).2 =
        { s with
          loopback := decide (mode &&& UINT32_MASK &&& CAN_MODE_LOOPBACK ≠ 0),
          mode_fd := decide (mode &&& UINT32_MASK &&& CAN_MODE_FD ≠ 0) }) := by
  refine ⟨?_, ?_, ?_⟩
  · intro h
    simp only [can_npl_set_mode, can_npl_get_capabilities] at h ⊢
    simp [bne_iff_ne, h]
  · intro h hs
    simp only [can_npl_set_mode, can_npl_get_capabilities] at h ⊢
    simp [bne_iff_ne, h, hs]
  · intro h hs
    simp only [can_npl_set_mode, can_npl_get_capabilities] at h ⊢
    simp [bne_iff_ne, h, hs, bne_zero_eq_decide]

/-- Witness for `set_mode_spec`: the three paths at concrete inputs. -/
theorem set_mode_spec_witness :
    can_npl_set_mode false sampleStopped 4 = (-ENOTSUP, sampleStopped) ∧
    can_npl_set_mode true sampleStarted 5 = (-EBUSY, sampleStarted) ∧
    (can_npl_set_mode true sampleStopped 5).1 = 0 ∧
    (can_npl_set_mode true sampleStopped 5).2.loopback = true ∧
    (can_npl_set_mode true sampleStopped 5).2.mode_fd = true :=
  ⟨(set_mode_spec false sampleStopped 4).1 (by decide),
   (set_mode_spec true sampleStarted 5).2.1 (by decide) (by decide),
   ((set_mode_spec true sampleStopped 5).2.2 (by decide) (by decide)).1,
   by
     have := ((set_mode_spec true sampleStopped 5).2.2 (by decide)
       (by decide)).2
     rw [this]
     decide,
   by
     have := ((set_mode_spec true sampleStopped 5).2.2 (by decide)
       (by decide)).2
     rw [this]
     decide⟩

/-- Auxiliary: an index lookup hit implies the index is in range. -/
theorem getElem?_some_lt {α : Type} {l : List α} {n : Nat} {a : α}
    (h : l[n]? = some a) : n < l.length :=
  (List.getElem?_eq_some.mp h).1

/-- Auxiliary: writing back the element already stored at an index leaves
the list unchanged. -/
theorem set_getElem?_self {α : Type} (l : List α) (i : Nat) (c : α)
    (h : l[i]? = some c) : l.set i c = l := by
  induction l generalizing i with
  | nil => simp at h
  | cons a t ih =>
    cases i with
    | zero =>
      simp only [List.getElem?_cons_zero, Option.some.injEq] at h
      subst h
      rfl
    | succ n =>
      simp only [List.getElem?_cons_succ] at h
      show a :: t.set n c = a :: t
      rw [ih n h]

/-- Auxiliary: reading back a just-written index. -/
theorem getElem?_set_self' {α : Type} (l : List α) (i : Nat) (a : α)
    (h : i < l.length) : (l.set i a)[i]? = some a := by
  simp [List.getElem?_set_self, h]

/-- C8: `remove_rx_filter` is a no-op for out-of-range handles and for
in-range handles whose slot is already empty; for an in-range occupied
handle it clears that slot's callback, leaving the slot empty. -/
theorem remove_rx_filter_spec (s : CanNplData) (filter_id : Int) :
    ((filter_id < 0 ∨ (s.filters.length : Int) ≤ filter_id) →
      can_npl_remove_rx_filter s filter_id = s)
    ∧ (∀ i : Nat, filter_id = (i : Int) →
      slotEmptyAt s.filters i = true →
      can_npl_remove_rx_filter s filter_id = s)
    ∧ (∀ i : Nat, ∀ c : FilterContext, filter_id = (i : Int) →
      s.filters[i]? = some c → c.rx_cb.isSome = true →
      (can_npl_remove_rx_filter s filter_id).filters =
        s.filters.set i { c with rx_cb := none } ∧
      slotEmptyAt (can_npl_remove_rx_filter s filter_id).filters i = true) := by
  refine ⟨?_, ?_, ?_⟩
  · intro h
    rw [can_npl_remove_rx_filter, if_pos h]
  · intro i hfi hempty
    subst hfi
    unfold slotEmptyAt at hempty
    cases hg : s.filters[i]? with
    | none => rw [hg] at hempty; simp at hempty
    | some c =>
      rw [hg] at hempty
      have hlt : i < s.filters.length := getElem?_some_lt hg
      have hcb : c.rx_cb = none := Option.isNone_iff_eq_none.mp hempty
      have hcl : clearSlot s.filters i = s.filters := by
        have hc : { c with rx_cb := none } = c := by
          cases c
          simp_all
        simp only [clearSlot, hg, hc]
        exact set_getElem?_self _ _ _ hg
      have hnot : ¬((i : Int) < 0 ∨ (s.filters.length : Int) ≤ (i : Int)) := by
        push_neg
        constructor <;> omega
      rw [can_npl_remove_rx_filter, if_neg hnot]
      simp [hcl]
  · intro i c hfi hg hocc
    subst hfi
    have hlt : i < s.filters.length := getElem?_some_lt hg
    have hcl : clearSlot s.filters i =
        s.filters.set i { c with rx_cb := none } := by
      simp only [clearSlot, hg]
    have hnot : ¬((i : Int) < 0 ∨ (s.filters.length : Int) ≤ (i : Int)) := by
      push_neg
      constructor <;> omega
    have hrem : can_npl_remove_rx_filter s (i : Int) =
        { s with filters := s.filters.set i { c with rx_cb := none } } := by
      rw [can_npl_remove_rx_filter, if_neg hnot]
      simp [hcl]
    refine ⟨by rw [hrem], ?_⟩
    rw [hrem]
    unfold slotEmptyAt
    have hget : (s.filters.set i { c with rx_cb := none })[i]? =
        some { c with rx_cb := none } :=
      getElem?_set_self' _ _ _ (by simpa using hlt)
    simp [hget]

/-- Witness for `remove_rx_filter_spec`: no-ops on an out-of-range handle,
a negative handle and an empty slot; clearing of an occupied slot. -/
theorem remove_rx_filter_spec_witness :
    can_npl_remove_rx_filter sampleOneFilter 7 = sampleOneFilter ∧
    can_npl_remove_rx_filter sampleOneFilter (-1) = sampleOneFilter ∧
    can_npl_remove_rx_filter sampleOneFilter 1 = sampleOneFilter ∧
    (can_npl_remove_rx_filter sampleOneFilter 0).filters =
      sampleOneFilter.filters.set 0 { occSlot 1 with rx_cb := none } ∧
    slotEmptyAt (can_npl_remove_rx_filter sampleOneFilter 0).filters 0 =
      true :=
  ⟨(remove_rx_filter_spec sampleOneFilter 7).1 (Or.inr (by decide)),
   (remove_rx_filter_spec sampleOneFilter (-1)).1 (Or.inl (by decide)),
   (remove_rx_filter_spec sampleOneFilter 1).2.1 1 (by decide) (by decide),
   ((remove_rx_filter_spec sampleOneFilter 0).2.2 0 (occSlot 1) (by decide)
     (by decide) (by decide)).1,
   ((remove_rx_filter_spec sampleOneFilter 0).2.2 0 (occSlot 1) (by decide)
     (by decide) (by decide)).2⟩

/-- Auxiliary: `slotEmptyAt` at the head of a table. -/
theorem slotEmptyAt_cons_zero (c : FilterContext) (rest : List FilterContext) :
    slotEmptyAt (c :: rest) 0 = c.rx_cb.isNone := by
  simp [slotEmptyAt]

/-- Auxiliary: `slotEmptyAt` past the head of a table. -/
theorem slotEmptyAt_cons_succ (c : FilterContext) (rest : List FilterContext)
    (n : Nat) : slotEmptyAt (c :: rest) (n + 1) = slotEmptyAt rest n := by
  simp [slotEmptyAt]

/-- Auxiliary: the slot scan finds the lowest-index empty slot. -/
theorem firstFreeSlot_of_isLowestEmpty (l : List FilterContext) (i : Nat)
    (h : isLowestEmpty l i) : firstFreeSlot l = some i := by
  induction l generalizing i with
  | nil =>
    obtain ⟨he, _⟩ := h
    simp [slotEmptyAt] at he
  | cons c rest ih =>
    obtain ⟨he, hmin⟩ := h
    cases i with
    | zero =>
      rw [slotEmptyAt_cons_zero] at he
      rw [firstFreeSlot, if_pos he]
    | succ n =>
      have h0 : slotEmptyAt (c :: rest) 0 = false := hmin 0 (Nat.succ_pos n)
      rw [slotEmptyAt_cons_zero] at h0
      rw [firstFreeSlot, if_neg (by simp [h0])]
      have hrest : firstFreeSlot rest = some n := by
        refine ih n ⟨?_, ?_⟩
        · rw [← slotEmptyAt_cons_succ c]
          exact he
        · intro j hj
          rw [← slotEmptyAt_cons_succ c]
          exact hmin (j + 1) (Nat.succ_lt_succ hj)
      rw [hrest]
      rfl

/-- Auxiliary: the slot scan fails on a table with no empty slot. -/
theorem firstFreeSlot_eq_none (l : List FilterContext)
    (h : ∀ c ∈ l, c.rx_cb ≠ none) : firstFreeSlot l = none := by
  induction l with
  | nil => rfl
  | cons c rest ih =>
    have hc : c.rx_cb.isNone = false := by
      have := h c (List.mem_cons_self c rest)
      cases hcb : c.rx_cb with
      | none => exact absurd hcb this
      | some cb => rfl
    rw [firstFreeSlot, if_neg (by simp [hc])]
    rw [ih (fun d hd => h d (List.mem_cons_of_mem c hd))]
    rfl

/-- C4: `add_rx_filter` stores the entry in the lowest-index empty slot and
returns that index; with no empty slot it fails `-ENOSPC` leaving the table
unchanged; after `remove(h)`, an `add` returns `h` whenever `h` is then the
lowest empty index. -/
theorem add_rx_filter_spec (s : CanNplData) (cb cb_arg : Nat)
    (flt : CanFilter) :
    (∀ i : Nat, isLowestEmpty s.filters i →
      (can_npl_add_rx_filter s cb cb_arg flt).1 = (i : Int) ∧
      (can_npl_add_rx_filter s cb cb_arg flt).2 =
        { s with filters := s.filters.set i ⟨some cb, cb_arg, flt⟩ })
    ∧ ((∀ c ∈ s.filters, c.rx_cb ≠ none) →
      can_npl_add_rx_filter s cb cb_arg flt = (-ENOSPC, s))
    ∧ (∀ h : Nat,
      isLowestEmpty (can_npl_remove_rx_filter s (h : Int)).filters h →
      (can_npl_add_rx_filter (can_npl_remove_rx_filter s (h : Int))
          cb cb_arg flt).1 = (h : Int)) := by
  refine ⟨?_, ?_, ?_⟩
  · intro i hi
    have hf := firstFreeSlot_of_isLowestEmpty _ _ hi
    constructor <;> simp [can_npl_add_rx_filter, hf]
  · intro hfull
    have hf := firstFreeSlot_eq_none _ hfull
    simp [can_npl_add_rx_filter, hf]
  · intro h hlow
    have hf := firstFreeSlot_of_isLowestEmpty _ _ hlow
    simp [can_npl_add_rx_filter, hf]

/-- Witness for `add_rx_filter_spec`: slot reuse and table exhaustion at
concrete tables. -/
theorem add_rx_filter_spec_witness :
    (can_npl_add_rx_filter sampleOneFilter 9 3 sampleFilter).1 = 1 ∧
    can_npl_add_rx_filter sampleFullTable 9 3 sampleFilter =
      (-ENOSPC, sampleFullTable) ∧
    (can_npl_add_rx_filter (can_npl_remove_rx_filter sampleFullTable 2)
        9 3 sampleFilter).1 = 2 :=
  ⟨((add_rx_filter_spec sampleOneFilter 9 3 sampleFilter).1 1
      (by constructor <;> decide)).1,
   (add_rx_filter_spec sampleFullTable 9 3 sampleFilter).2.1 (by decide),
   (add_rx_filter_spec sampleFullTable 9 3 sampleFilter).2.2 2
     (by constructor <;> decide)⟩

/-- Auxiliary: indices produced by `List.enumFrom n` are at least `n`. -/
theorem fst_le_of_mem_enumFrom {α : Type} :
    ∀ (l : List α) (n : Nat) (p : Nat × α), p ∈ List.enumFrom n l → n ≤ p.1 := by
  intro l
  induction l with
  | nil => intro n p hp; simp at hp
  | cons a t ih =>
    intro n p hp
    rcases List.mem_cons.mp hp with h | h
    · subst h; exact Nat.le_refl n
    · exact Nat.le_of_succ_le (ih (n + 1) p h)

/-- Auxiliary: enumeration indices are strictly increasing. -/
theorem pairwise_fst_lt_enumFrom {α : Type} (l : List α) :
    ∀ n : Nat, List.Pairwise (fun a b => a.1 < b.1) (List.enumFrom n l) := by
  induction l with
  | nil => intro n; simp
  | cons a t ih =>
    intro n
    refine List.Pairwise.cons ?_ (ih (n + 1))
    intro p hp
    exact Nat.lt_of_succ_le (fst_le_of_mem_enumFrom t (n + 1) p hp)

/-- Auxiliary: `dispatchLoop` starting at slot index `idx` produces exactly
the matching occupied slots of the remaining table, enumerated from `idx`,
each handed the original frame — whatever mutation previous callbacks
performed on their copies (`mutf`) and whatever `tmp_frame` held before. -/
theorem dispatchLoop_eq_enumFrom (frame : CanFrame)
    (mutf : Nat → CanFrame → CanFrame) (l : List FilterContext) :
    ∀ (idx : Nat) (tmp : CanFrame),
      dispatchLoop frame mutf l idx tmp =
        ((List.enumFrom idx l).filter (fun p =>
            p.2.rx_cb.isSome && can_utils_filter_match frame p.2.filter)).map
          (fun p =>
            ⟨p.1, p.2.rx_cb.getD 0, frame, p.2.cb_arg⟩) := by
  induction l with
  | nil => intro idx tmp; rfl
  | cons c rest ih =>
    intro idx tmp
    cases hc : c.rx_cb with
    | none =>
      simp only [dispatchLoop, hc, List.enumFrom_cons, List.filter_cons]
      simp [hc, ih]
    | some cb =>
      by_cases hm : can_utils_filter_match frame c.filter = true
      · simp only [dispatchLoop, hc, if_pos hm, List.enumFrom_cons,
          List.filter_cons]
        simp [hc, hm, ih]
      · simp only [dispatchLoop, hc, if_neg hm, List.enumFrom_cons,
          List.filter_cons]
        simp [hc, hm, ih]

/-- C3: for every received frame, `dispatch_frame` invokes exactly the
callbacks of the occupied, matching slots — in ascending slot-index order,
each exactly once — and every callback receives the original frame value:
the mutation oracle `mutf` (a callback altering its private copy) has no
effect on the invocations, in particular not on later callbacks' views. -/
theorem dispatch_frame_fanout (s : CanNplData) (frame : CanFrame)
    (mutf : Nat → CanFrame → CanFrame) (tmp0 : CanFrame) :
    (dispatch_frame s frame mutf tmp0 =
      (s.filters.enum.filter (fun p =>
          p.2.rx_cb.isSome && can_utils_filter_match frame p.2.filter)).map
        (fun p => ⟨p.1, p.2.rx_cb.getD 0, frame, p.2.cb_arg⟩))
    ∧ (∀ e ∈ dispatch_frame s frame mutf tmp0, e.frame = frame)
    ∧ List.Pairwise (fun a b => a.filter_id < b.filter_id)
        (dispatch_frame s frame mutf tmp0) := by
  have hmain : dispatch_frame s frame mutf tmp0 =
      (s.filters.enum.filter (fun p =>
          p.2.rx_cb.isSome && can_utils_filter_match frame p.2.filter)).map
        (fun p => ⟨p.1, p.2.rx_cb.getD 0, frame, p.2.cb_arg⟩) := by
    unfold dispatch_frame List.enum
    exact dispatchLoop_eq_enumFrom frame mutf s.filters 0 tmp0
  refine ⟨hmain, ?_, ?_⟩
  · intro e he
    rw [hmain] at he
    obtain ⟨p, _, rfl⟩ := List.mem_map.mp he
    rfl
  · rw [hmain]
    refine List.Pairwise.map _ (fun a b h => h) ?_
    exact List.Pairwise.sublist (List.filter_sublist _)
      (pairwise_fst_lt_enumFrom s.filters 0)

/-- Witness for `dispatch_frame_fanout`: on the sample table whose slot 0
matches the sample frame, the slot-0 event carries the original frame. -/
theorem dispatch_frame_fanout_witness :
    ((⟨0, 1, sampleFrame, 7⟩ : DispatchEvent) ∈
      dispatch_frame sampleOneFilter sampleFrame (fun _ f => f) sampleFrame) ∧
    (⟨0, 1, sampleFrame, 7⟩ : DispatchEvent).frame = sampleFrame :=
  ⟨by decide,
   (dispatch_frame_fanout sampleOneFilter sampleFrame (fun _ f => f)
     sampleFrame).2.1 ⟨0, 1, sampleFrame, 7⟩ (by decide)⟩

/-- C2: on reading a unit marked as a transmit confirmation, the receive
loop invokes the pending transmit callback with status 0 when one is
registered and otherwise gives the `tx_done` completion; it always gives
the `tx_idle` permit; and it additionally dispatches the frame through the
filter table exactly when loopback is enabled and the controller is
started. -/
theorem rx_confirm_step (s : CanNplData) (count : Int) (frame : CanFrame)
    (mutf : Nat → CanFrame → CanFrame) (hc : 0 < count) :
    ((rxStepOnce s count true frame mutf).idle_given = true)
    ∧ (∀ cb, s.tx_callback = some cb →
      (rxStepOnce s count true frame mutf).tx_cb_event =
        some (cb, 0, s.tx_user_data) ∧
      (rxStepOnce s count true frame mutf).done_given = false)
    ∧ (s.tx_callback = none →
      (rxStepOnce s count true frame mutf).tx_cb_event = none ∧
      (rxStepOnce s count true frame mutf).done_given = true)
    ∧ ((rxStepOnce s count true frame mutf).dispatched = true ↔
      (s.loopback = true ∧ s.started = true)) := by
  have hcnt : ¬count ≤ 0 := Int.not_le.mpr hc
  refine ⟨?_, ?_, ?_, ?_⟩
  · cases hl : s.loopback <;> cases hst : s.started <;>
      simp [rxStepOnce, hl, hst, hcnt]
  · intro cb hcb
    cases hl : s.loopback <;> cases hst : s.started <;>
      simp [rxStepOnce, hl, hst, hcnt, hcb]
  · intro hcb
    cases hl : s.loopback <;> cases hst : s.started <;>
      simp [rxStepOnce, hl, hst, hcnt, hcb]
  · cases hl : s.loopback <;> cases hst : s.started <;>
      simp [rxStepOnce, hl, hst, hcnt]

/-- Witness for `rx_confirm_step`: a confirmation read on the loopback
sample controller with a registered callback. -/
theorem rx_confirm_step_witness :
    (0 : Int) < 1 ∧
    (rxStepOnce sampleLoopback 1 true sampleFrame
      (fun _ f => f)).idle_given = true ∧
    (rxStepOnce sampleLoopback 1 true sampleFrame
      (fun _ f => f)).tx_cb_event =
        some (42, 0, sampleLoopback.tx_user_data) ∧
    ((rxStepOnce sampleLoopback 1 true sampleFrame
      (fun _ f => f)).dispatched = true ↔
      (sampleLoopback.loopback = true ∧ sampleLoopback.started = true)) :=
  ⟨by decide,
   (rx_confirm_step sampleLoopback 1 sampleFrame (fun _ f => f)
     (by decide)).1,
   ((rx_confirm_step sampleLoopback 1 sampleFrame (fun _ f => f)
     (by decide)).2.1 42 rfl).1,
   (rx_confirm_step sampleLoopback 1 sampleFrame (fun _ f => f)
     (by decide)).2.2.2⟩

end CanNpl
